import Mathlib

/-!
Shallow embedding of the provisioning / reconciliation workflow of the
membership-commerce application:

* `handleSubscriptionChange` embeds the webhook reconciliation procedure of
  `src/app/api/webhooks/stripe/route.ts` (lines 12-89).
* `provisionCircleAccess` embeds the forward provisioning workflow of
  `src/lib/provision.ts` (lines 49-262).
* `provisionAccessPost` embeds the checkout-confirmation handler of
  `src/app/api/provision-access/route.ts` (lines 11-132).

External collaborators (database writes that may fail, the Circle admin API)
are modelled as oracles supplied in an environment record; the database rows a
run can touch are threaded as explicit state.  JavaScript truthiness of the
source is preserved (`0`, `""`, `null`/`undefined` are falsy).
-/

namespace Spec2Proof

/-- Whether `pat` is a prefix of `s`, on character lists. -/
def listStartsWith : List Char → List Char → Bool
  | _, [] => true
  | [], _ :: _ => false
  | a :: as, b :: bs => a == b && listStartsWith as bs

/-- Whether `pat` occurs as a contiguous run inside `s`, on character
lists. -/
def listHasInfix (pat : List Char) : List Char → Bool
  | [] => pat.isEmpty
  | c :: rest => listStartsWith (c :: rest) pat || listHasInfix pat rest

/-- Substring test: `strContains s pat` holds iff `pat` occurs in `s`
(mirrors JavaScript `String.prototype.includes`). -/
def strContains (s pat : String) : Bool := listHasInfix pat.data s.data

/-- The characters of `s` before the first `'@'` (all of `s` when it has
none): mirrors JavaScript `s.split('@')[0]`. -/
def takeUntilAt : List Char → List Char
  | [] => []
  | c :: rest => if c == '@' then [] else c :: takeUntilAt rest

/-- JavaScript `email.split('@')[0]`: the part of the address before the
first `'@'`. -/
def emailLocalPart (s : String) : String := ⟨takeUntilAt s.data⟩

/-- JavaScript truthiness of a nullable number (`0`, `null`, `undefined`
are falsy). -/
def jsTruthyInt : Option Int → Bool
  | some x => x != 0
  | none => false

/-- JavaScript truthiness of a nullable non-negative id. -/
def jsTruthyNat : Option Nat → Bool
  | some n => n != 0
  | none => false

theorem jsTruthyNat_some (n : Nat) : jsTruthyNat (some n) = (n != 0) := rfl

/-- JavaScript truthiness of a nullable string (`""`, `null`, `undefined`
are falsy). -/
def jsTruthyStr : Option String → Bool
  | some s => s != ""
  | none => false

/-! ## Reconciliation procedure (webhook path)

`src/app/api/webhooks/stripe/route.ts`, `handleSubscriptionChange`. -/

/-- A local Subscription row as loaded by the webhook handler
(`prisma.subscription.findUnique` with the user's email and the community's
Circle space id joined in). `endDate` is epoch milliseconds or null. -/
structure SubRow where
  id : Nat
  status : String
  endDate : Option Int
  userEmail : String
  spaceId : Int
  deriving Repr, DecidableEq

/-- Observable outcome of one run of `handleSubscriptionChange`: the final
subscription row (`none` when no row matched), the number of database writes
issued against the Subscription row, the number of external space-membership
DELETE calls issued, and whether the run reported success. -/
structure ReconResult where
  db : Option SubRow
  dbWrites : Nat
  deleteCalls : Nat
  success : Bool
  deriving Repr, DecidableEq

/-- Embedding of `handleSubscriptionChange(stripeSubscriptionId, newStatus,
endDateMs)` from `src/app/api/webhooks/stripe/route.ts` lines 12-89.
`db` is the row found for the external subscription reference (`none` when
the lookup matched nothing); `deleteOk` is the oracle for the external
`space_members` DELETE call (database operations are modelled as succeeding;
their failure propagates out of the procedure and is outside the claims
below). -/
def handleSubscriptionChange (db : Option SubRow) (newStatus : String)
    (endDateMs : Option Int) (deleteOk : Bool) : ReconResult :=
  match db with
  | none =>
      { db := none, dbWrites := 0, deleteCalls := 0, success := true }
  | some sub =>
      let statusDiffers := sub.status != newStatus
      let currentEndDate := sub.endDate
      let endDateDiffers := currentEndDate != endDateMs
      let needsUpdate := statusDiffers || endDateDiffers
      let newEnd := if jsTruthyInt endDateMs then endDateMs else none
      let sub1 :=
        if needsUpdate then
          { sub with
            status := if statusDiffers then newStatus else sub.status,
            endDate := if endDateDiffers then newEnd else sub.endDate }
        else sub
      let writes1 := if needsUpdate then 1 else 0
      let isEnded := newStatus == "canceled" || newStatus == "unpaid"
      if isEnded then
        if deleteOk then
          { db := some sub1, dbWrites := writes1, deleteCalls := 1, success := true }
        else
          { db := some { sub1 with status := "access_revocation_failed" },
            dbWrites := writes1 + 1, deleteCalls := 1, success := true }
      else
        { db := some sub1, dbWrites := writes1, deleteCalls := 0, success := true }

/-! ## Provisioning workflow (forward path)

`src/lib/provision.ts`, `provisionCircleAccess`. -/

/-- An error thrown by `callCircleAdminApi` (see `src/lib/circle-admin-api.ts`):
an `Error` optionally carrying an HTTP `status` code, a `message`, and a
`details` body whose own `message` field is `detailsMsg` (absent when the
details object has no `message` property). -/
structure ApiErr where
  status : Option Nat
  msg : Option String
  detailsMsg : Option String
  deriving Repr, DecidableEq

/-- Embedding of the not-found classification in `provisionCircleAccess`
(`src/lib/provision.ts` lines 153-163): the error is treated as not-found
when its status is 404, or when its details carry a message containing the
substring "not found". -/
def isNotFoundError (e : ApiErr) : Bool :=
  (e.status == some 404) ||
    (match e.detailsMsg with
     | some m => strContains m "not found"
     | none => false)

/-- Embedding of the already-a-member classification for the space-member add
call (`src/lib/provision.ts` lines 226-236): case-insensitive substring match
for "already been taken" / "already a member" against both the top-level
message and the nested details message. -/
def isAlreadyMember (e : ApiErr) : Bool :=
  let msg := (e.msg.getD "").toLower
  let dmsg := (e.detailsMsg.getD "").toLower
  strContains msg "already been taken" || strContains msg "already a member" ||
    strContains dmsg "already been taken" || strContains dmsg "already a member"

/-- Oracle outcome of the `community_members/search` GET call: a non-empty
member list (first id returned), an empty list, or a thrown error. -/
inductive SearchOutcome where
  | found (memberId : Nat)
  | empty
  | err (e : ApiErr)
  deriving Repr, DecidableEq

/-- Oracle outcome of a `community_members` POST (member creation) call. -/
inductive CallOutcome where
  | ok (memberId : Nat)
  | err (e : ApiErr)
  deriving Repr, DecidableEq

/-- Oracle outcome of the `space_members` POST (add member to space) call. -/
inductive AddOutcome where
  | ok
  | err (e : ApiErr)
  deriving Repr, DecidableEq

/-- The body of a `community_members` creation request as built at the two
creation sites of `provisionCircleAccess`: the first site (empty search
result, lines 137-145) sends `community_id: 1` and falls back to the part of
the email before the `@` as the name; the second site (lines 180-189) sends
no community id and passes the name only when one was supplied.  Both send
`skip_invitation: true`. -/
structure CreateReq where
  hasCommunityId : Bool
  email : String
  name : Option String
  skipInvitation : Bool
  deriving Repr, DecidableEq

/-- Database and call-log state threaded through a provisioning run:
the Subscription row status for the (user, community) pair (`none` when no
row exists), the user's cached Circle member id (`User.circleCommunityMemberId`),
the list of external member-creation requests issued, and the number of
space-member add calls issued. -/
structure ProvState where
  subStatus : Option String
  cachedId : Option Nat
  createReqs : List CreateReq
  addCalls : Nat
  deriving Repr, DecidableEq

/-- Oracle environment for one provisioning run: whether each database
operation succeeds and the outcome of each external Circle call.
`cacheOk` governs the `prisma.user.update` calls that cache the Circle member
id; `markOk` governs the `prisma.subscription.update` writes that record
`provisioning_failed`. -/
structure ProvEnv where
  userUpsertOk : Bool
  subUpsertOk : Bool
  search : SearchOutcome
  createA : CallOutcome
  createB : CallOutcome
  cacheOk : Bool
  markOk : Bool
  add : AddOutcome
  deriving Repr, DecidableEq

/-- The body of `provisionCircleAccess` inside its outer `try`
(`src/lib/provision.ts` lines 63-251), with `Except.error s` standing for an
exception reaching the outer catch with database state `s`, and
`Except.ok s` for the `return { success: true }` at line 251.

Step by step against the source:
* user upsert (lines 66-86): failure is rethrown wrapped, reaching the outer
  catch;
* subscription upsert (lines 89-106): sets status `active`;
* member resolution (lines 109-173): a truthy cached id short-circuits;
  otherwise the search runs, and inside the same `try` a non-empty result
  caches the first id and sets `circleMemberExists`, while an empty result
  creates a member (first creation site) and caches the id WITHOUT setting
  `circleMemberExists`; the `catch` classifies the thrown error (from the
  search itself, from the inline creation, or from a caching update - a
  database error carries neither a 404 status nor a details message) as
  not-found or rethrows it;
* second creation site (lines 176-202): runs whenever `circleMemberExists`
  is still false; on any failure inside its `try` (creation or the caching
  update) the Subscription is marked `provisioning_failed` and the error is
  rethrown (if that marking write itself fails, its own error propagates and
  the status is left unchanged);
* missing-id guard (lines 205-207): a falsy member id throws;
* space-member add (lines 210-248): an error matching the already-a-member
  patterns is swallowed; any other error marks the Subscription
  `provisioning_failed` and is rethrown. -/
def provisionCircleAccessInner (env : ProvEnv) (userEmail : String)
    (userName : Option String) (prior : ProvState) :
    Except ProvState ProvState :=
  if !env.userUpsertOk then .error prior else
  if !env.subUpsertOk then .error prior else
  let st := { prior with subStatus := some "active" }
  let resolved : Except ProvState (ProvState × Option Nat × Bool) :=
    if jsTruthyNat st.cachedId then .ok (st, st.cachedId, true)
    else
      match env.search with
      | .found mid =>
          if env.cacheOk then .ok ({ st with cachedId := some mid }, some mid, true)
          else .error st
      | .empty =>
          let req : CreateReq :=
            { hasCommunityId := true, email := userEmail,
              name := some (userName.getD (emailLocalPart userEmail)),
              skipInvitation := true }
          let st1 := { st with createReqs := st.createReqs ++ [req] }
          match env.createA with
          | .ok mid =>
              if env.cacheOk then .ok ({ st1 with cachedId := some mid }, some mid, false)
              else .error st1
          | .err e =>
              if isNotFoundError e then .ok (st1, st.cachedId, false)
              else .error st1
      | .err e =>
          if isNotFoundError e then .ok (st, st.cachedId, false)
          else .error st
  match resolved with
  | .error s => .error s
  | .ok (st2, mid0, memberExists) =>
    let afterCreate : Except ProvState (ProvState × Option Nat) :=
      if !memberExists then
        let req : CreateReq :=
          { hasCommunityId := false, email := userEmail, name := userName,
            skipInvitation := true }
        let st3 := { st2 with createReqs := st2.createReqs ++ [req] }
        match env.createB with
        | .ok mid =>
            if env.cacheOk then .ok ({ st3 with cachedId := some mid }, some mid)
            else
              if env.markOk then .error { st3 with subStatus := some "provisioning_failed" }
              else .error st3
        | .err _ =>
            if env.markOk then .error { st3 with subStatus := some "provisioning_failed" }
            else .error st3
      else .ok (st2, mid0)
    match afterCreate with
    | .error s => .error s
    | .ok (st4, mid) =>
      if !jsTruthyNat mid then .error st4
      else
        let st5 := { st4 with addCalls := st4.addCalls + 1 }
        match env.add with
        | .ok => .ok st5
        | .err e =>
            if isAlreadyMember e then .ok st5
            else
              if env.markOk then .error { st5 with subStatus := some "provisioning_failed" }
              else .error st5

/-- Structured result returned by `provisionCircleAccess`, with the final
database/call-log state attached for observation. -/
structure ProvResult where
  success : Bool
  error : Option String
  state : ProvState
  deriving Repr, DecidableEq

/-- Embedding of `provisionCircleAccess` (`src/lib/provision.ts` lines
49-262): the body runs inside one outer `try`; the outer catch (lines
253-261) logs and returns `{ success: false, error: "Error provisioning
Circle access" }` without touching the database. -/
def provisionCircleAccess (env : ProvEnv) (userEmail : String)
    (userName : Option String) (prior : ProvState) : ProvResult :=
  match provisionCircleAccessInner env userEmail userName prior with
  | .ok s => { success := true, error := none, state := s }
  | .error s =>
      { success := false, error := some "Error provisioning Circle access",
        state := s }

/-! ## Checkout-confirmation handler

`src/app/api/provision-access/route.ts`, `POST`. -/

/-- The fields of the retrieved Stripe checkout session that the handler
inspects (`client_reference_id`, `payment_status`, and the extracted
subscription id, customer id, and line-item price id - the source's
string-or-object extraction at lines 68-70 is modelled by its resulting
optional string). -/
structure StripeSession where
  clientReferenceId : Option String
  paymentStatus : String
  subscriptionId : Option String
  customerId : Option String
  priceId : Option String
  deriving Repr, DecidableEq

/-- Oracle outcome of `stripe.checkout.sessions.retrieve`: a thrown error
(caught by the handler's catch, yielding a 500), a falsy session, or a
session object. -/
inductive SessionFetch where
  | thrown
  | nullSession
  | ok (s : StripeSession)
  deriving Repr, DecidableEq

/-- The Community row fields selected by the handler
(`id`, `circleSpaceId`, `stripePriceIdMonthly`, `stripePriceIdAnnually`). -/
structure CommunityRow where
  id : Nat
  circleSpaceId : Int
  priceMonthly : Option String
  priceAnnual : Option String
  deriving Repr, DecidableEq

/-- Oracle outcome of `request.json()`: a thrown parse error (caught by the
handler's catch, yielding a 500) or a body with the three fields the handler
destructures (each absent field is `none`). -/
inductive BodyFetch where
  | thrown
  | ok (sessionId : Option String) (spaceId : Option Int) (communitySlug : Option String)
  deriving Repr, DecidableEq

/-- Oracle environment for one run of the checkout-confirmation handler.
`userName` is the display name derived at line 20 of the source from the
Clerk profile (always a string); `community` is the result of the
`prisma.community.findUnique` read. -/
structure PostEnv where
  userId : Option String
  userEmail : Option String
  userName : String
  stripeConfigured : Bool
  body : BodyFetch
  sessionFetch : SessionFetch
  community : Option CommunityRow
  provEnv : ProvEnv
  deriving Repr, DecidableEq

/-- Observable outcome of one run of the handler: HTTP status, the
`success` flag of the JSON response, whether `provisionCircleAccess` was
invoked, the resulting database/call-log state, and the redirect target on
success. -/
structure PostResult where
  status : Nat
  success : Bool
  provisionCalled : Bool
  state : ProvState
  redirectUrl : Option String
  deriving Repr, DecidableEq

/-- Embedding of the `POST` handler of `src/app/api/provision-access/route.ts`
(lines 11-132).  Guards in source order: missing auth (401), missing email
(400), unconfigured payment client (500); then inside the `try`: body parse
failure (caught, 500), missing body fields (400), session retrieval failure
(caught, 500), falsy session or caller-reference mismatch (400), unpaid
status (400), missing subscription/customer/price data (400), missing
community or space-id mismatch (400), price id matching neither configured
price (400); only then is `provisionCircleAccess` called - its failure yields
a 500, its success a 200 with the redirect target.  `prior` is the database
state before the request; the only database mutations of the handler happen
inside `provisionCircleAccess`. -/
def provisionAccessPost (env : PostEnv) (prior : ProvState) : PostResult :=
  let noCall (status : Nat) : PostResult :=
    { status := status, success := false, provisionCalled := false,
      state := prior, redirectUrl := none }
  if !jsTruthyStr env.userId then noCall 401
  else if !jsTruthyStr env.userEmail then noCall 400
  else if !env.stripeConfigured then noCall 500
  else
    match env.body with
    | .thrown => noCall 500
    | .ok sessionId spaceId communitySlug =>
      if !(jsTruthyStr sessionId && jsTruthyInt spaceId && jsTruthyStr communitySlug) then
        noCall 400
      else
        match env.sessionFetch with
        | .thrown => noCall 500
        | .nullSession => noCall 400
        | .ok s =>
          if s.clientReferenceId != env.userId then noCall 400
          else if s.paymentStatus != "paid" then noCall 400
          else if !(jsTruthyStr s.subscriptionId && jsTruthyStr s.customerId &&
              jsTruthyStr s.priceId) then noCall 400
          else
            match env.community with
            | none => noCall 400
            | some c =>
              if spaceId != some c.circleSpaceId then noCall 400
              else
                let planType : Option String :=
                  if s.priceId == c.priceMonthly then some "monthly"
                  else if s.priceId == c.priceAnnual then some "annual"
                  else none
                if !(jsTruthyStr planType) then noCall 400
                else
                  let r := provisionCircleAccess env.provEnv
                    (env.userEmail.getD "") (some env.userName) prior
                  if !r.success then
                    { status := 500, success := false, provisionCalled := true,
                      state := r.state, redirectUrl := none }
                  else
                    { status := 200, success := true, provisionCalled := true,
                      state := r.state,
                      redirectUrl := some ("/platform-space/" ++
                        toString (spaceId.getD 0)) }

/-! ## Claims about the reconciliation procedure -/

/-- C1, as stated, is false on the code: the revocation block of
`handleSubscriptionChange` sits outside the `needsUpdate` guard, so
redelivering an identical `canceled` event (stored status and end-date
already equal to the incoming ones) issues the space-membership DELETE call
again.  Concretely: an `active` row receives `canceled` (first delivery:
one delete call, row now `canceled`); the identical second delivery issues
another delete call instead of none. -/
theorem c1_counterexample :
    (handleSubscriptionChange
      (some { id := 1, status := "active", endDate := none,
              userEmail := "u@example.com", spaceId := 7 })
      "canceled" none true).deleteCalls = 1 ∧
    (handleSubscriptionChange
      (some { id := 1, status := "active", endDate := none,
              userEmail := "u@example.com", spaceId := 7 })
      "canceled" none true).db =
      some { id := 1, status := "canceled", endDate := none,
             userEmail := "u@example.com", spaceId := 7 } ∧
    (handleSubscriptionChange
      (some { id := 1, status := "canceled", endDate := none,
              userEmail := "u@example.com", spaceId := 7 })
      "canceled" none true).deleteCalls ≠ 0 := by
  refine ⟨by decide, by decide, by decide⟩

/-- C1 amended: for every delivery carrying an ended status (`canceled` or
`unpaid`) for a locally known subscription, the external space-membership
DELETE call is issued exactly once per delivery, regardless of whether the
stored status and end-date already match the incoming ones. -/
theorem c1_amended_delete_per_delivery (sub : SubRow) (ns : String)
    (ed : Option Int) (ok : Bool) (h : ns = "canceled" ∨ ns = "unpaid") :
    (handleSubscriptionChange (some sub) ns ed ok).deleteCalls = 1 := by
  rcases h with h | h <;> subst h <;>
    simp only [handleSubscriptionChange] <;>
    cases ok <;> simp

/-- Witness for the amended C1 at a concrete input. -/
theorem c1_amended_witness :
    (handleSubscriptionChange
      (some { id := 3, status := "active", endDate := some 1000,
              userEmail := "w@example.com", spaceId := 9 })
      "unpaid" (some 1000) true).deleteCalls = 1 :=
  c1_amended_delete_per_delivery _ "unpaid" (some 1000) true (Or.inr rfl)

/-- C6: a reconciliation invocation whose external subscription reference
matches no local Subscription row returns success and performs no database
write and no external revocation call, for every incoming status, end-date
and revocation-oracle outcome. -/
theorem c6_unknown_subscription_silent (ns : String) (ed : Option Int)
    (ok : Bool) :
    handleSubscriptionChange none ns ed ok =
      { db := none, dbWrites := 0, deleteCalls := 0, success := true } := rfl

/-- C7, as stated, is false on the code: with stored status `canceled` and
stored end-date equal to the incoming ones, a failing revocation call still
writes `access_revocation_failed` to the Subscription row - one database
write despite status and end-date being unchanged. -/
theorem c7_counterexample :
    (handleSubscriptionChange
      (some { id := 2, status := "canceled", endDate := none,
              userEmail := "v@example.com", spaceId := 3 })
      "canceled" none false).dbWrites = 1 ∧
    (handleSubscriptionChange
      (some { id := 2, status := "canceled", endDate := none,
              userEmail := "v@example.com", spaceId := 3 })
      "canceled" none false).db =
      some { id := 2, status := "access_revocation_failed", endDate := none,
             userEmail := "v@example.com", spaceId := 3 } := by
  refine ⟨by decide, by decide⟩

/-- C7 amended: when the incoming status and end-date equal the stored ones,
the reconciliation update step performs no write, and no write at all occurs
unless the incoming status is ended (`canceled`/`unpaid`) and the revocation
call fails (which records `access_revocation_failed`).  So: under the
additional assumption that the revocation succeeds or the status is not an
ended one, the row is untouched. -/
theorem c7_amended_unchanged_no_write (sub : SubRow) (ns : String)
    (ed : Option Int) (ok : Bool) (hst : sub.status = ns)
    (hed : sub.endDate = ed)
    (hok : ok = true ∨ (ns ≠ "canceled" ∧ ns ≠ "unpaid")) :
    (handleSubscriptionChange (some sub) ns ed ok).dbWrites = 0 ∧
    (handleSubscriptionChange (some sub) ns ed ok).db = some sub := by
  simp only [handleSubscriptionChange, hst, hed]
  have hs : (ns != ns) = false := by simp
  have he : (ed != ed) = false := by simp
  rcases hok with hok | ⟨h1, h2⟩
  · subst hok
    simp only [hs, he]
    split <;> simp
  · have hc : (ns == "canceled") = false := by
      simpa using h1
    have hu : (ns == "unpaid") = false := by
      simpa using h2
    simp [hs, he, hc, hu]

/-- Witness for the amended C7 at a concrete input. -/
theorem c7_amended_witness :
    (handleSubscriptionChange
      (some { id := 4, status := "past_due", endDate := none,
              userEmail := "x@example.com", spaceId := 5 })
      "past_due" none false).dbWrites = 0 ∧
    (handleSubscriptionChange
      (some { id := 4, status := "past_due", endDate := none,
              userEmail := "x@example.com", spaceId := 5 })
      "past_due" none false).db =
      some { id := 4, status := "past_due", endDate := none,
             userEmail := "x@example.com", spaceId := 5 } :=
  c7_amended_unchanged_no_write _ "past_due" none false rfl rfl
    (Or.inr (by decide))

/-- C8: for every reconciliation invocation with an ended status (`canceled`
or `unpaid`) whose external space-membership revocation call fails, the
Subscription row ends with status `access_revocation_failed` and the
procedure still reports success. -/
theorem c8_revocation_failure_recorded (sub : SubRow) (ns : String)
    (ed : Option Int) (h : ns = "canceled" ∨ ns = "unpaid") :
    (handleSubscriptionChange (some sub) ns ed false).db.map SubRow.status =
      some "access_revocation_failed" ∧
    (handleSubscriptionChange (some sub) ns ed false).success = true := by
  rcases h with h | h <;> subst h <;>
    simp only [handleSubscriptionChange] <;> simp

/-- Witness for C8 at a concrete input. -/
theorem c8_witness :
    (handleSubscriptionChange
      (some { id := 6, status := "active", endDate := none,
              userEmail := "y@example.com", spaceId := 11 })
      "canceled" none false).db.map SubRow.status =
      some "access_revocation_failed" ∧
    (handleSubscriptionChange
      (some { id := 6, status := "active", endDate := none,
              userEmail := "y@example.com", spaceId := 11 })
      "canceled" none false).success = true :=
  c8_revocation_failure_recorded _ "canceled" none (Or.inl rfl)

/-! ## Claims about the provisioning workflow -/

/-- C5: no exception escapes the provisioning workflow: for every oracle
environment, caller data and prior database state it returns a structured
result, either success with no error message or failure with a
human-readable message. -/
theorem c5_structured_result (env : ProvEnv) (em : String) (nm : Option String)
    (prior : ProvState) :
    ((provisionCircleAccess env em nm prior).success = true ∧
      (provisionCircleAccess env em nm prior).error = none) ∨
    ((provisionCircleAccess env em nm prior).success = false ∧
      (provisionCircleAccess env em nm prior).error =
        some "Error provisioning Circle access") := by
  cases h : provisionCircleAccessInner env em nm prior <;>
    simp [provisionCircleAccess, h]

/-- C10: whenever the provisioning workflow reports failure, the error field
is the constant string `Error provisioning Circle access`, independent of
which step failed. -/
theorem c10_constant_error_message (env : ProvEnv) (em : String)
    (nm : Option String) (prior : ProvState)
    (h : (provisionCircleAccess env em nm prior).success = false) :
    (provisionCircleAccess env em nm prior).error =
      some "Error provisioning Circle access" := by
  cases hh : provisionCircleAccessInner env em nm prior <;>
    simp [provisionCircleAccess, hh] at h ⊢

/-- Witness for C10 at a concrete failing input (user upsert fails). -/
theorem c10_witness :
    (provisionCircleAccess
      ⟨false, true, .empty, .ok 1, .ok 1, true, true, .ok⟩
      "a@example.com" none ⟨none, none, [], 0⟩).error =
      some "Error provisioning Circle access" :=
  c10_constant_error_message _ _ _ _ (by decide)

/-- C2, as stated, is false on the code: when the not-found condition is an
empty search result, the member creation happens at the first creation site,
inside the same `try` as the search; its failure is caught by the search
`catch`, classified as not-not-found, and rethrown without any
`provisioning_failed` write.  Concretely: both upserts succeed, the search
returns an empty list, the creation call fails with a plain error - the
workflow returns failure but the Subscription row is left `active`, not
`provisioning_failed`. -/
theorem c2_counterexample :
    (provisionCircleAccess
      ⟨true, true, .empty, .err ⟨none, some "boom", none⟩, .ok 5, true, true, .ok⟩
      "a@example.com" none ⟨none, none, [], 0⟩).success = false ∧
    (provisionCircleAccess
      ⟨true, true, .empty, .err ⟨none, some "boom", none⟩, .ok 5, true, true, .ok⟩
      "a@example.com" none ⟨none, none, [], 0⟩).state.subStatus = some "active" ∧
    (provisionCircleAccess
      ⟨true, true, .empty, .err ⟨none, some "boom", none⟩, .ok 5, true, true, .ok⟩
      "a@example.com" none ⟨none, none, [], 0⟩).state.subStatus ≠
      some "provisioning_failed" := by
  refine ⟨by decide, by decide, by decide⟩

/-- C2 amended: the `provisioning_failed` marking on creation failure is
guaranteed only when the creation attempt is the second creation site, i.e.
when the not-found condition was signalled by a search error (HTTP 404 or a
details message containing "not found"); in that case a failing creation
leaves the Subscription `provisioning_failed` and the workflow returns
failure.  When instead the search succeeds with an empty list, the inline
creation call's failure (when not itself carrying a not-found signal) aborts
the workflow with failure while leaving the Subscription `active`. -/
theorem c2_amended_marking_on_signal_path (e eA eB : ApiErr) (em : String)
    (nm : Option String) (prior : ProvState)
    (hc : jsTruthyNat prior.cachedId = false)
    (hnf : isNotFoundError e = true)
    (hA : isNotFoundError eA = false) :
    ((provisionCircleAccess ⟨true, true, .err e, .ok 1, .err eB, true, true, .ok⟩
        em nm prior).success = false ∧
      (provisionCircleAccess ⟨true, true, .err e, .ok 1, .err eB, true, true, .ok⟩
        em nm prior).state.subStatus = some "provisioning_failed") ∧
    ((provisionCircleAccess ⟨true, true, .empty, .err eA, .ok 1, true, true, .ok⟩
        em nm prior).success = false ∧
      (provisionCircleAccess ⟨true, true, .empty, .err eA, .ok 1, true, true, .ok⟩
        em nm prior).state.subStatus = some "active") := by
  simp [provisionCircleAccess, provisionCircleAccessInner, hc, hnf, hA]

/-- Witness for the amended C2 at concrete inputs. -/
theorem c2_amended_witness :
    ((provisionCircleAccess
        ⟨true, true, .err ⟨some 404, none, none⟩, .ok 1,
          .err ⟨none, some "boom", none⟩, true, true, .ok⟩
        "b@example.com" none ⟨none, none, [], 0⟩).success = false ∧
      (provisionCircleAccess
        ⟨true, true, .err ⟨some 404, none, none⟩, .ok 1,
          .err ⟨none, some "boom", none⟩, true, true, .ok⟩
        "b@example.com" none ⟨none, none, [], 0⟩).state.subStatus =
        some "provisioning_failed") ∧
    ((provisionCircleAccess
        ⟨true, true, .empty, .err ⟨none, some "oops", none⟩, .ok 1, true, true, .ok⟩
        "b@example.com" none ⟨none, none, [], 0⟩).success = false ∧
      (provisionCircleAccess
        ⟨true, true, .empty, .err ⟨none, some "oops", none⟩, .ok 1, true, true, .ok⟩
        "b@example.com" none ⟨none, none, [], 0⟩).state.subStatus =
        some "active") :=
  c2_amended_marking_on_signal_path ⟨some 404, none, none⟩
    ⟨none, some "oops", none⟩ ⟨none, some "boom", none⟩
    "b@example.com" none ⟨none, none, [], 0⟩ (by decide) (by decide) (by decide)

/-- C3, as stated, is false on the code: the outer catch of
`provisionCircleAccess` performs no database write at all - it never marks
the Subscription `provisioning_failed`.  Concretely: both upserts succeed and
the member search fails with an unexpected (non-not-found) error; the
workflow returns failure and the Subscription row stays `active` even though
its status is `active` and the claim requires it to be marked
`provisioning_failed`. -/
theorem c3_counterexample :
    (provisionCircleAccess
      ⟨true, true, .err ⟨some 500, some "server error", none⟩, .ok 1, .ok 1,
        true, true, .ok⟩
      "c@example.com" none ⟨none, none, [], 0⟩).success = false ∧
    (provisionCircleAccess
      ⟨true, true, .err ⟨some 500, some "server error", none⟩, .ok 1, .ok 1,
        true, true, .ok⟩
      "c@example.com" none ⟨none, none, [], 0⟩).state.subStatus =
      some "active" := by
  refine ⟨by decide, by decide⟩

/-- C3 amended: on any uncaught failure the workflow returns the generic
failure result with the database state exactly as the failing step left it:
the final handler performs no compensating write (in particular it never
writes `provisioning_failed`, so an unexpected lookup failure leaves the
Subscription `active`). -/
theorem c3_amended_no_compensating_write (env : ProvEnv) (em : String)
    (nm : Option String) (prior st : ProvState)
    (h : provisionCircleAccessInner env em nm prior = .error st) :
    provisionCircleAccess env em nm prior =
      { success := false, error := some "Error provisioning Circle access",
        state := st } := by
  simp [provisionCircleAccess, h]

/-- Witness for the amended C3 at a concrete input (failing user upsert, so
the throw state is the untouched prior state). -/
theorem c3_amended_witness :
    provisionCircleAccess ⟨false, true, .empty, .ok 1, .ok 1, true, true, .ok⟩
      "d@example.com" none ⟨some "active", none, [], 0⟩ =
      { success := false, error := some "Error provisioning Circle access",
        state := ⟨some "active", none, [], 0⟩ } :=
  c3_amended_no_compensating_write _ _ _ _ _ rfl

/-- C4, as stated, is false on the code: the three not-found paths do not
have identical subsequent behaviour.  The empty-search-result path builds its
creation request at the first creation site (with a `community_id` field and
an email-derived name fallback) and - because that site never sets
`circleMemberExists` - is always followed by a second creation call; the
HTTP-404 path issues exactly one creation call with a different request
body.  Concretely, with every external call succeeding: the empty-list run
issues two creation requests, the 404 run issues one. -/
theorem c4_counterexample :
    (provisionCircleAccess ⟨true, true, .empty, .ok 9, .ok 9, true, true, .ok⟩
      "ann@example.com" none ⟨none, none, [], 0⟩).state.createReqs =
      [⟨true, "ann@example.com", some "ann", true⟩,
       ⟨false, "ann@example.com", none, true⟩] ∧
    (provisionCircleAccess
      ⟨true, true, .err ⟨some 404, none, none⟩, .ok 9, .ok 9, true, true, .ok⟩
      "ann@example.com" none ⟨none, none, [], 0⟩).state.createReqs =
      [⟨false, "ann@example.com", none, true⟩] ∧
    (provisionCircleAccess ⟨true, true, .empty, .ok 9, .ok 9, true, true, .ok⟩
        "ann@example.com" none ⟨none, none, [], 0⟩).state.createReqs ≠
      (provisionCircleAccess
        ⟨true, true, .err ⟨some 404, none, none⟩, .ok 9, .ok 9, true, true, .ok⟩
        "ann@example.com" none ⟨none, none, [], 0⟩).state.createReqs := by
  refine ⟨by decide, by decide, by decide⟩

/-- C4 amended: the two not-found error signals (HTTP 404, and a details
message containing "not found") are treated exactly equivalently - the entire
provisioning result is identical for the two signals, whatever the rest of
the environment does.  The empty-search-result path also creates a member
with invitation suppressed and ends with the created member id cached, but it
issues a different creation request (with a `community_id` field and an
email-derived name fallback) followed by a second creation request, rather
than behaving identically to the error-signal paths. -/
theorem c4_amended_signal_paths_equivalent (m : String) (cA cB : CallOutcome)
    (cacheOk markOk : Bool) (add : AddOutcome) (em : String)
    (nm : Option String) (prior : ProvState) (a b : Nat)
    (hm : strContains m "not found" = true)
    (hc : jsTruthyNat prior.cachedId = false)
    (hb : (b != 0) = true) :
    (provisionCircleAccess
        ⟨true, true, .err ⟨some 404, none, none⟩, cA, cB, cacheOk, markOk, add⟩
        em nm prior =
      provisionCircleAccess
        ⟨true, true, .err ⟨none, none, some m⟩, cA, cB, cacheOk, markOk, add⟩
        em nm prior) ∧
    ((provisionCircleAccess ⟨true, true, .empty, .ok a, .ok b, true, true, .ok⟩
        em nm prior).state.createReqs =
      prior.createReqs ++
        [⟨true, em, some (nm.getD (emailLocalPart em)), true⟩,
         ⟨false, em, nm, true⟩] ∧
     (provisionCircleAccess ⟨true, true, .empty, .ok a, .ok b, true, true, .ok⟩
        em nm prior).state.cachedId = some b ∧
     (provisionCircleAccess ⟨true, true, .empty, .ok a, .ok b, true, true, .ok⟩
        em nm prior).success = true) := by
  have h404 : isNotFoundError ⟨some 404, none, none⟩ = true := by decide
  have hmm : isNotFoundError ⟨none, none, some m⟩ = true := by
    simp [isNotFoundError, hm]
  simp [provisionCircleAccess, provisionCircleAccessInner, h404, hmm, hc,
    jsTruthyNat_some, hb]

/-- Witness for the amended C4 at concrete inputs. -/
theorem c4_amended_witness :
    (provisionCircleAccess
        ⟨true, true, .err ⟨some 404, none, none⟩, .ok 1, .ok 1, true, true, .ok⟩
        "bea@example.com" none ⟨none, none, [], 0⟩ =
      provisionCircleAccess
        ⟨true, true, .err ⟨none, none, some "member not found"⟩, .ok 1, .ok 1,
          true, true, .ok⟩
        "bea@example.com" none ⟨none, none, [], 0⟩) ∧
    ((provisionCircleAccess ⟨true, true, .empty, .ok 7, .ok 9, true, true, .ok⟩
        "bea@example.com" none ⟨none, none, [], 0⟩).state.createReqs =
      ([] : List CreateReq) ++
        [⟨true, "bea@example.com",
          some ((Option.none).getD (emailLocalPart "bea@example.com")), true⟩,
         ⟨false, "bea@example.com", none, true⟩] ∧
     (provisionCircleAccess ⟨true, true, .empty, .ok 7, .ok 9, true, true, .ok⟩
        "bea@example.com" none ⟨none, none, [], 0⟩).state.cachedId = some 9 ∧
     (provisionCircleAccess ⟨true, true, .empty, .ok 7, .ok 9, true, true, .ok⟩
        "bea@example.com" none ⟨none, none, [], 0⟩).success = true) :=
  c4_amended_signal_paths_equivalent "member not found" (.ok 1) (.ok 1)
    true true .ok "bea@example.com" none ⟨none, none, [], 0⟩ 7 9
    (by decide) (by decide) (by decide)

/-! ## Claim about the checkout-confirmation handler -/

/-- C9: when every guard before the plan-type computation passes but the
purchased price id equals neither the community's configured monthly price
nor its configured annual price, the handler responds 400, never invokes the
provisioning workflow, and leaves the database state untouched. -/
theorem c9_price_mismatch_rejected_before_mutation
    (uid em nm sid slug subId custId pid : String) (sp : Int)
    (c : CommunityRow) (pe : ProvEnv) (prior : ProvState)
    (huid : uid ≠ "") (hem : em ≠ "") (hsid : sid ≠ "") (hslug : slug ≠ "")
    (_hsp : sp ≠ 0) (hsub : subId ≠ "") (hcust : custId ≠ "") (hpid : pid ≠ "")
    (hspace : sp = c.circleSpaceId)
    (hmon : some pid ≠ c.priceMonthly) (hann : some pid ≠ c.priceAnnual) :
    provisionAccessPost
      { userId := some uid, userEmail := some em, userName := nm,
        stripeConfigured := true,
        body := .ok (some sid) (some sp) (some slug),
        sessionFetch := .ok
          { clientReferenceId := some uid, paymentStatus := "paid",
            subscriptionId := some subId, customerId := some custId,
            priceId := some pid },
        community := some c, provEnv := pe } prior =
      { status := 400, success := false, provisionCalled := false,
        state := prior, redirectUrl := none } := by
  simp [provisionAccessPost, jsTruthyStr, jsTruthyInt, huid, hem, hsid, hslug,
    hsub, hcust, hpid, hspace, hmon, hann]

/-- Witness for C9 at concrete inputs. -/
theorem c9_witness :
    provisionAccessPost
      { userId := some "user_1", userEmail := some "e@example.com",
        userName := "E", stripeConfigured := true,
        body := .ok (some "cs_1") (some 2222222) (some "solas-nua"),
        sessionFetch := .ok
          { clientReferenceId := some "user_1", paymentStatus := "paid",
            subscriptionId := some "sub_1", customerId := some "cus_1",
            priceId := some "price_other" },
        community := some
          { id := 1, circleSpaceId := 2222222,
            priceMonthly := some "price_m", priceAnnual := some "price_a" },
        provEnv := ⟨true, true, .empty, .ok 1, .ok 1, true, true, .ok⟩ }
      ⟨none, none, [], 0⟩ =
      { status := 400, success := false, provisionCalled := false,
        state := ⟨none, none, [], 0⟩, redirectUrl := none } :=
  c9_price_mismatch_rejected_before_mutation "user_1" "e@example.com" "E"
    "cs_1" "solas-nua" "sub_1" "cus_1" "price_other" 2222222
    { id := 1, circleSpaceId := 2222222, priceMonthly := some "price_m",
      priceAnnual := some "price_a" }
    ⟨true, true, .empty, .ok 1, .ok 1, true, true, .ok⟩ ⟨none, none, [], 0⟩
    (by decide) (by decide) (by decide) (by decide) (by decide) (by decide)
    (by decide) (by decide) (by decide) (by decide) (by decide)

end Spec2Proof
